import Mathlib

/-!
Shallow embedding of the notification dispatch core of the repository
(`notifications/services.py`, `notifications/models.py`).

The `NotificationService` class resolves a user's `UserContacts` row at
construction time and its `send_notification` method tries the channels
Email, SMS, Telegram in order, returning `True` on the first truthy helper
return value.  Each helper (`_send_email`, `_send_sms`, `_send_telegram`)
wraps its whole body in a blanket `try/except Exception` that prints a
diagnostic and falls off the end (returning Python `None`).

External effects are modelled explicitly:
- the mail transport (`django.core.mail.send_mail`) as `EmailTransport`;
- an HTTP round trip (`requests.post`) as `NetResult` — either a response
  with a status code and a body, or a raised exception with a message;
- a helper's observable behaviour as `AdapterResult`: the Python value it
  returns, the outbound HTTP request it issued (if any), and the diagnostic
  line it printed (if any).
-/

/-- Python values returned by the channel helper methods.  Truthiness is
what the dispatch loop tests (`if method(**params):`).  `_send_telegram`
returns `response.json()`, a dict whose truthiness is its non-emptiness. -/
inductive PyVal where
  | none
  | bool (b : Bool)
  | dict (nonempty : Bool)
deriving DecidableEq, Repr

/-- Python truthiness of the modelled values. -/
def PyVal.truthy : PyVal → Bool
  | .none => false
  | .bool b => b
  | .dict ne => ne

/-- The settings read from `config.settings`.  A credential that is not
configured is the empty string (falsy in Python, as tested by
`if not TELE2_API_KEY` / `if not TELEGRAM_BOT_TOKEN`). -/
structure Config where
  EMAIL_HOST_USER : String
  TELE2_API_KEY : String
  TELE2_SENDER_NAME : String
  TELE2_URL : String
  TELEGRAM_BOT_TOKEN : String
  TELEGRAM_URL : String
deriving DecidableEq, Repr

/-- The `UserContacts` model row (`notifications/models.py`): email address,
phone number and Telegram chat id of a user. -/
structure UserContacts where
  email : String
  phone : String
  telegram_chat_id : String
deriving DecidableEq, Repr

/-- A Django user as seen by `NotificationService.__init__`: accessing
`user.contacts` either yields the one-to-one `UserContacts` row or raises
`UserContacts.DoesNotExist` (modelled as `Option.none`). -/
structure User where
  contacts : Option UserContacts
deriving DecidableEq, Repr

/-- The constructed service object: it holds the resolved contacts row. -/
structure NotificationService where
  contacts : UserContacts
deriving DecidableEq, Repr

/-- Outcome of `NotificationService.__init__`: the constructed object, or a
raised `ValidationError` with its message. -/
inductive InitResult where
  | ok (service : NotificationService)
  | validationError (msg : String)
deriving DecidableEq, Repr

/-- `NotificationService.__init__`: store the user, try `user.contacts`; on
`UserContacts.DoesNotExist` raise
`ValidationError("Контакты пользователя не заполнены")`. -/
def NotificationService.init (user : User) : InitResult :=
  match user.contacts with
  | Option.none => .validationError "Контакты пользователя не заполнены"
  | some c => .ok { contacts := c }

/-- Behaviour of the mail transport for one `send_mail` call: it either
accepts the message or raises an exception with message `msg`. -/
inductive EmailTransport where
  | success
  | raises (msg : String)
deriving DecidableEq, Repr

/-- The body of an HTTP response, as seen through `response.json()`:
either parsing raises a decode error (whose message is `decodeErr`), or it
yields a dict with an optional `"message"` entry; `nonempty` is the dict's
truthiness (relevant only to the Telegram helper's return value). -/
inductive Body where
  | unparseable (decodeErr : String)
  | json (message : Option String) (nonempty : Bool)
deriving DecidableEq, Repr

/-- An HTTP response: status code and body. -/
structure HttpResponse where
  status : Nat
  body : Body
deriving DecidableEq, Repr

/-- Behaviour of one `requests.post` call: a response, or a raised
exception (timeout, connection error, ...) with message `msg`. -/
inductive NetResult where
  | resp (r : HttpResponse)
  | raises (msg : String)
deriving DecidableEq, Repr

/-- An outbound HTTP request as built by the SMS and Telegram helpers:
URL, headers, the key/value payload (`json=` for SMS, `params=` for
Telegram) and the explicit timeout in seconds, if any. -/
structure HttpRequest where
  url : String
  headers : List (String × String)
  payload : List (String × String)
  timeout : Option Nat
deriving DecidableEq, Repr

/-- Observable behaviour of one helper-method call: the Python value it
returns, the outbound HTTP request it issued (none when it short-circuited
before any network call, and always none for email, whose transport call is
abstracted by `EmailTransport`), and the diagnostic it printed. -/
structure AdapterResult where
  retval : PyVal
  request : Option HttpRequest
  log : Option String
deriving DecidableEq, Repr

/-- `_send_email`: calls `send_mail(...)` and returns `True`; any exception
is caught, `"Ошибка отправки email: {e}"` is printed, and the method falls
off the end, returning `None`. -/
def _send_email (transport : EmailTransport) : AdapterResult :=
  match transport with
  | .success => { retval := .bool true, request := Option.none, log := Option.none }
  | .raises e =>
      { retval := .none, request := Option.none,
        log := some ("Ошибка отправки email: " ++ e) }

/-- The request built by `_send_sms` when the API key is configured:
`TELE2_URL`, bearer-token and JSON content-type headers, payload
`{sender, text, msisdn}`, timeout 10 seconds. -/
def smsRequest (cfg : Config) (contacts : UserContacts) (message : String) :
    HttpRequest :=
  { url := cfg.TELE2_URL
    headers := [("Authorization", "Bearer " ++ cfg.TELE2_API_KEY),
                ("Content-Type", "application/json")]
    payload := [("sender", cfg.TELE2_SENDER_NAME), ("text", message),
                ("msisdn", contacts.phone)]
    timeout := some 10 }

/-- `_send_sms`: returns `False` at once when `TELE2_API_KEY` is falsy
(no network call); otherwise posts `smsRequest`.  Status 200 returns
`True`.  Another status calls `response.json().get("message", "Unknown
error")` and prints `"Tele2 API error: {error_msg}"`; when the body is
unparseable that `.json()` call raises and the blanket handler prints
`"Ошибка отправки SMS: {e}"` instead.  A raised `requests.post` is caught
by the same handler.  All non-200 paths fall off the end (return `None`). -/
def _send_sms (cfg : Config) (contacts : UserContacts) (message : String)
    (net : NetResult) : AdapterResult :=
  if cfg.TELE2_API_KEY = "" then
    { retval := .bool false, request := Option.none, log := Option.none }
  else
    let req := smsRequest cfg contacts message
    match net with
    | .raises e =>
        { retval := .none, request := some req,
          log := some ("Ошибка отправки SMS: " ++ e) }
    | .resp r =>
        if r.status = 200 then
          { retval := .bool true, request := some req, log := Option.none }
        else
          match r.body with
          | .json m _ =>
              { retval := .none, request := some req,
                log := some ("Tele2 API error: " ++ m.getD "Unknown error") }
          | .unparseable decodeErr =>
              { retval := .none, request := some req,
                log := some ("Ошибка отправки SMS: " ++ decodeErr) }

/-- The request built by `_send_telegram` when the bot token is configured:
URL `f"{TELEGRAM_URL}{TELEGRAM_BOT_TOKEN}/sendMessage"` with query params
`{text, chat_id}`, no headers, no explicit timeout. -/
def telegramRequest (cfg : Config) (contacts : UserContacts)
    (message : String) : HttpRequest :=
  { url := cfg.TELEGRAM_URL ++ cfg.TELEGRAM_BOT_TOKEN ++ "/sendMessage"
    headers := []
    payload := [("text", message), ("chat_id", contacts.telegram_chat_id)]
    timeout := Option.none }

/-- Message of the `requests.HTTPError` raised by `raise_for_status()` for a
4xx/5xx status; the exact text is an abstraction of the library's wording,
only its occurrence in the printed diagnostic matters to the model. -/
def httpErrorText (status : Nat) : String :=
  toString status ++ " Error"

/-- `_send_telegram`: returns `False` at once when `TELEGRAM_BOT_TOKEN` is
falsy (no network call); otherwise posts `telegramRequest`, calls
`response.raise_for_status()` (raises for status ≥ 400) and returns
`response.json()` (a dict).  Every exception — a raised post, the
`HTTPError`, or a JSON decode error — is caught, `"Ошибка отправки в
Telegram: {e}"` is printed, and the method falls off the end (`None`). -/
def _send_telegram (cfg : Config) (contacts : UserContacts) (message : String)
    (net : NetResult) : AdapterResult :=
  if cfg.TELEGRAM_BOT_TOKEN = "" then
    { retval := .bool false, request := Option.none, log := Option.none }
  else
    let req := telegramRequest cfg contacts message
    match net with
    | .raises e =>
        { retval := .none, request := some req,
          log := some ("Ошибка отправки в Telegram: " ++ e) }
    | .resp r =>
        if 400 ≤ r.status then
          { retval := .none, request := some req,
            log := some ("Ошибка отправки в Telegram: " ++ httpErrorText r.status) }
        else
          match r.body with
          | .json _ ne =>
              { retval := .dict ne, request := some req, log := Option.none }
          | .unparseable decodeErr =>
              { retval := .none, request := some req,
                log := some ("Ошибка отправки в Telegram: " ++ decodeErr) }

/-- Outcome of one `method(**params)` call inside the dispatch loop: a
returned Python value, or a raised exception with message `msg`. -/
inductive CallOutcome where
  | returns (v : PyVal)
  | raises (msg : String)
deriving DecidableEq, Repr

/-- Result of `send_notification`: a returned boolean or a raised
`Exception` with its message. -/
inductive SendResult where
  | ok (b : Bool)
  | error (msg : String)
deriving DecidableEq, Repr

/-- The message of the aggregate exception raised by `send_notification`
when `last_error` was set and no channel succeeded. -/
def allFailedMsg (lastError : String) : String :=
  "Все способы доставки не сработали. Последняя ошибка: " ++ lastError

/-- The `for channel_name, method, params in channels:` loop of
`send_notification`, instrumented with the list of channel names whose
method was invoked.  A truthy return value ends the loop with `True`; a
raised exception stores `str(e)` into `last_error` and continues; after the
loop, a set `last_error` raises the aggregate exception, otherwise the
method returns `False`. -/
def dispatchLoop :
    List (String × CallOutcome) → Option String → SendResult × List String
  | [], Option.none => (.ok false, [])
  | [], some e => (.error (allFailedMsg e), [])
  | (name, outcome) :: rest, lastError =>
    match outcome with
    | .returns v =>
        if v.truthy then (.ok true, [name])
        else
          let p := dispatchLoop rest lastError
          (p.1, name :: p.2)
    | .raises e =>
        let p := dispatchLoop rest (some e)
        (p.1, name :: p.2)

/-- The SMS text built in `send_notification`: `f"{subject}\n{message}"`. -/
def smsMessage (subject message : String) : String :=
  subject ++ "\n" ++ message

/-- The Telegram text built in `send_notification`:
`f"*{subject}*\n{message}"`. -/
def telegramMessage (subject message : String) : String :=
  "*" ++ subject ++ "*" ++ "\n" ++ message

/-- Behaviour of the external world during one dispatch call: the mail
transport and the two HTTP round trips (each consulted at most once). -/
structure World where
  emailT : EmailTransport
  smsNet : NetResult
  teleNet : NetResult
deriving DecidableEq, Repr

/-- The `channels` list of `send_notification`, in source order, each
helper paired with the outcome of calling it.  Every helper catches its own
exceptions, so each entry is a `returns` outcome. -/
def channels (cfg : Config) (contacts : UserContacts) (w : World)
    (subject message : String) : List (String × CallOutcome) :=
  [("email", .returns (_send_email w.emailT).retval),
   ("sms", .returns
      (_send_sms cfg contacts (smsMessage subject message) w.smsNet).retval),
   ("telegram", .returns
      (_send_telegram cfg contacts (telegramMessage subject message)
        w.teleNet).retval)]

/-- `send_notification`: run the dispatch loop over the three channels with
`last_error` initially unset; its returned boolean or raised exception. -/
def send_notification (cfg : Config) (contacts : UserContacts) (w : World)
    (subject message : String) : SendResult :=
  (dispatchLoop (channels cfg contacts w subject message) Option.none).1

/-- The channel names whose helper method was invoked during the dispatch
call, in invocation order. -/
def invoked (cfg : Config) (contacts : UserContacts) (w : World)
    (subject message : String) : List String :=
  (dispatchLoop (channels cfg contacts w subject message) Option.none).2

/-- The last `raises` message among a list of call outcomes (later entries
overwrite earlier ones; `returns` outcomes leave the accumulator alone),
starting from an initial `last_error`. -/
def lastRaisedFrom (os : List (String × CallOutcome)) (le : Option String) :
    Option String :=
  os.foldl
    (fun acc p =>
      match p.2 with
      | .raises e => some e
      | .returns _ => acc)
    le

/-- The last `raises` message among a list of call outcomes. -/
def lastRaised (os : List (String × CallOutcome)) : Option String :=
  lastRaisedFrom os Option.none

/-- A configuration with every credential present. -/
def cfgAll : Config :=
  { EMAIL_HOST_USER := "admin@example.com"
    TELE2_API_KEY := "key123"
    TELE2_SENDER_NAME := "Tele2"
    TELE2_URL := "https://tele2.example/api/send"
    TELEGRAM_BOT_TOKEN := "bot42"
    TELEGRAM_URL := "https://api.telegram.org/bot" }

/-- A configuration with no SMS API key and no Telegram bot token. -/
def cfgNone : Config :=
  { EMAIL_HOST_USER := ""
    TELE2_API_KEY := ""
    TELE2_SENDER_NAME := "Tele2"
    TELE2_URL := "https://tele2.example/api/send"
    TELEGRAM_BOT_TOKEN := ""
    TELEGRAM_URL := "https://api.telegram.org/bot" }

/-- A fully filled contacts row. -/
def contactsW : UserContacts :=
  { email := "user@example.com"
    phone := "+79991234567"
    telegram_chat_id := "123456789" }

/-- A world in which the mail transport raises "smtp down"; the two network
behaviours are irrelevant because no network call will be made. -/
def worldSmtpDown : World :=
  { emailT := .raises "smtp down"
    smsNet := .raises "unreached"
    teleNet := .raises "unreached" }

/-- A world in which the mail transport raises a connection error. -/
def worldDown : World :=
  { emailT := .raises "connection refused"
    smsNet := .raises "unreached"
    teleNet := .raises "unreached" }

/-- The dispatch loop over three channels that all return (none raises):
the result is success at the first truthy value, with exactly the channels
up to and including it invoked, else `False` with all three invoked. -/
theorem dispatchLoop3_returns (n1 n2 n3 : String) (v1 v2 v3 : PyVal) :
    dispatchLoop [(n1, .returns v1), (n2, .returns v2), (n3, .returns v3)]
        Option.none =
      if v1.truthy then (.ok true, [n1])
      else if v2.truthy then (.ok true, [n1, n2])
      else if v3.truthy then (.ok true, [n1, n2, n3])
      else (.ok false, [n1, n2, n3]) := by
  by_cases h1 : v1.truthy <;> by_cases h2 : v2.truthy <;>
    by_cases h3 : v3.truthy <;> simp [dispatchLoop, h1, h2, h3]

/-- When the dispatch loop ends in the aggregate exception, its message is
`allFailedMsg` of the last `raises` outcome encountered (with the incoming
`last_error` as the starting value of that accumulator). -/
theorem dispatchLoop_error_eq (os : List (String × CallOutcome))
    (le : Option String) (m : String)
    (h : (dispatchLoop os le).1 = .error m) :
    ∃ e, lastRaisedFrom os le = some e ∧ m = allFailedMsg e := by
  induction os generalizing le with
  | nil =>
    cases le with
    | none => simp [dispatchLoop] at h
    | some e =>
      refine ⟨e, rfl, ?_⟩
      simp [dispatchLoop] at h
      exact h.symm
  | cons p rest ih =>
    obtain ⟨name, outcome⟩ := p
    cases outcome with
    | returns v =>
      by_cases hv : v.truthy
      · simp [dispatchLoop, hv] at h
      · simp only [dispatchLoop, hv, if_neg, Bool.false_eq_true,
          ite_false] at h
        have hrec := ih le h
        simpa [lastRaisedFrom] using hrec
    | raises e2 =>
      simp only [dispatchLoop] at h
      have hrec := ih (some e2) h
      simpa [lastRaisedFrom] using hrec

/-- Appending a channel whose call returns a falsy value (an unavailable
channel) after any outcome list does not change the loop's result: it
neither turns a soft `False` into an exception nor changes the exception
message. -/
theorem dispatchLoop_append_falsy (os : List (String × CallOutcome))
    (le : Option String) (name : String) (v : PyVal)
    (hv : v.truthy = false) :
    (dispatchLoop (os ++ [(name, CallOutcome.returns v)]) le).1 =
      (dispatchLoop os le).1 := by
  induction os generalizing le with
  | nil => cases le <;> simp [dispatchLoop, hv]
  | cons p rest ih =>
    obtain ⟨n2, outcome⟩ := p
    cases outcome with
    | returns w =>
      by_cases hw : w.truthy
      · simp [dispatchLoop, hw]
      · simp [dispatchLoop, hw, ih le]
    | raises e2 => simp [dispatchLoop, ih (some e2)]

/-- Claim C1: the claim states that when the Email transport raises (reason
"smtp down") and SMS and Telegram are unconfigured, `send_notification`
raises the aggregate delivery-failure exception carrying "smtp down".  The
code does not: `_send_email` catches the transport exception itself, prints
the diagnostic and returns `None`, so the loop's `last_error` is never set
and `send_notification` returns `False` — the aggregate `raise` (and the
docstring's `Raises: Exception` contract) is unreachable.  This theorem
evaluates the code at the claim's failing input. -/
theorem claim_c1_email_failure_swallowed :
    send_notification cfgNone contactsW worldSmtpDown "Тема" "Текст" =
      .ok false
    ∧ (_send_email (.raises "smtp down")).log =
        some "Ошибка отправки email: smtp down"
    ∧ send_notification cfgNone contactsW worldSmtpDown "Тема" "Текст" ≠
        .error (allFailedMsg "smtp down") := by
  refine ⟨by decide, by decide, by decide⟩

/-- Claim C2: channels are tried in the fixed order Email, SMS, Telegram —
the invoked-channel list is always a prefix of that order — and as soon as
one channel's call returns a truthy value (reports Delivered),
`send_notification` returns `True` immediately with exactly the channels
up to and including it invoked, so no later channel is ever called: this
is stated for the Email transport accepting the message, for a truthy
Email call in general, for a truthy SMS call after a falsy Email call, and
for a truthy Telegram call after falsy Email and SMS calls. -/
theorem claim_c2_fallback_order_short_circuit (cfg : Config)
    (contacts : UserContacts) (w : World) (subject message : String) :
    invoked cfg contacts w subject message <+: ["email", "sms", "telegram"]
    ∧ (w.emailT = .success →
        send_notification cfg contacts w subject message = .ok true
        ∧ invoked cfg contacts w subject message = ["email"])
    ∧ ((_send_email w.emailT).retval.truthy = true →
        send_notification cfg contacts w subject message = .ok true
        ∧ invoked cfg contacts w subject message = ["email"])
    ∧ ((_send_email w.emailT).retval.truthy = false →
        (_send_sms cfg contacts (smsMessage subject message)
          w.smsNet).retval.truthy = true →
        send_notification cfg contacts w subject message = .ok true
        ∧ invoked cfg contacts w subject message = ["email", "sms"])
    ∧ ((_send_email w.emailT).retval.truthy = false →
        (_send_sms cfg contacts (smsMessage subject message)
          w.smsNet).retval.truthy = false →
        (_send_telegram cfg contacts (telegramMessage subject message)
          w.teleNet).retval.truthy = true →
        send_notification cfg contacts w subject message = .ok true
        ∧ invoked cfg contacts w subject message =
            ["email", "sms", "telegram"]) := by
  have h3 := dispatchLoop3_returns "email" "sms" "telegram"
    (_send_email w.emailT).retval
    (_send_sms cfg contacts (smsMessage subject message) w.smsNet).retval
    (_send_telegram cfg contacts (telegramMessage subject message)
      w.teleNet).retval
  have hch : channels cfg contacts w subject message =
      [("email", .returns (_send_email w.emailT).retval),
       ("sms", .returns
        (_send_sms cfg contacts (smsMessage subject message) w.smsNet).retval),
       ("telegram", .returns
        (_send_telegram cfg contacts (telegramMessage subject message)
          w.teleNet).retval)] := rfl
  refine ⟨?_, ?_, ?_, ?_, ?_⟩
  · show (dispatchLoop (channels cfg contacts w subject message)
      Option.none).2 <+: ["email", "sms", "telegram"]
    rw [hch, h3]
    split_ifs <;> decide
  · intro h
    constructor <;>
      simp [send_notification, invoked, channels, h, _send_email,
        dispatchLoop, PyVal.truthy]
  · intro he
    constructor
    · show (dispatchLoop (channels cfg contacts w subject message)
        Option.none).1 = .ok true
      rw [hch, h3]
      simp [he]
    · show (dispatchLoop (channels cfg contacts w subject message)
        Option.none).2 = ["email"]
      rw [hch, h3]
      simp [he]
  · intro he hs
    constructor
    · show (dispatchLoop (channels cfg contacts w subject message)
        Option.none).1 = .ok true
      rw [hch, h3]
      simp [he, hs]
    · show (dispatchLoop (channels cfg contacts w subject message)
        Option.none).2 = ["email", "sms"]
      rw [hch, h3]
      simp [he, hs]
  · intro he hs ht
    constructor
    · show (dispatchLoop (channels cfg contacts w subject message)
        Option.none).1 = .ok true
      rw [hch, h3]
      simp [he, hs, ht]
    · show (dispatchLoop (channels cfg contacts w subject message)
        Option.none).2 = ["email", "sms", "telegram"]
      rw [hch, h3]
      simp [he, hs, ht]

/-- Claim C2 witness: with every credential configured and a healthy mail
transport, the call succeeds having invoked only the Email channel; and
when the mail transport raises while the SMS exchange returns HTTP 200,
the call succeeds having invoked only Email and SMS — Telegram is never
invoked after the SMS success. -/
theorem claim_c2_witness :
    (send_notification cfgAll contactsW
        { emailT := .success, smsNet := .raises "unreached",
          teleNet := .raises "unreached" } "Тема" "Текст" = .ok true
     ∧ invoked cfgAll contactsW
        { emailT := .success, smsNet := .raises "unreached",
          teleNet := .raises "unreached" } "Тема" "Текст" = ["email"])
    ∧ (send_notification cfgAll contactsW
        { emailT := .raises "smtp down",
          smsNet := .resp { status := 200, body := .json Option.none false },
          teleNet := .raises "unreached" } "Тема" "Текст" = .ok true
     ∧ invoked cfgAll contactsW
        { emailT := .raises "smtp down",
          smsNet := .resp { status := 200, body := .json Option.none false },
          teleNet := .raises "unreached" } "Тема" "Текст" =
            ["email", "sms"]) :=
  ⟨(claim_c2_fallback_order_short_circuit cfgAll contactsW
      { emailT := .success, smsNet := .raises "unreached",
        teleNet := .raises "unreached" } "Тема" "Текст").2.1 rfl,
   (claim_c2_fallback_order_short_circuit cfgAll contactsW
      { emailT := .raises "smtp down",
        smsNet := .resp { status := 200, body := .json Option.none false },
        teleNet := .raises "unreached" } "Тема" "Текст").2.2.2.1
     (by decide) (by decide)⟩

/-- Claim C3: when no SMS API key and no Telegram bot token are configured
and the mail transport errors out (no working channel at all, and no
failure reason is ever recorded in `last_error`), `send_notification`
returns `False` and does not raise. -/
theorem claim_c3_all_unavailable_returns_false (cfg : Config)
    (contacts : UserContacts) (w : World) (subject message r : String)
    (h1 : cfg.TELE2_API_KEY = "") (h2 : cfg.TELEGRAM_BOT_TOKEN = "")
    (h3 : w.emailT = .raises r) :
    send_notification cfg contacts w subject message = .ok false := by
  simp [send_notification, channels, _send_email, _send_sms, _send_telegram,
    h1, h2, h3, dispatchLoop, PyVal.truthy]

/-- Claim C3 witness: concrete all-unavailable dispatch returns `False`. -/
theorem claim_c3_witness :
    send_notification cfgNone contactsW worldDown "Тема" "Текст" =
      .ok false :=
  claim_c3_all_unavailable_returns_false cfgNone contactsW worldDown
    "Тема" "Текст" "connection refused" rfl rfl rfl

/-- Claim C4: every helper catches its transport's exceptions internally
and every channel entry of the dispatch loop is a returned value, never a
raised one; consequently `last_error` is never assigned and
`send_notification` always returns a plain boolean — for every behaviour
of the world it never raises the aggregate exception. -/
theorem claim_c4_never_raises (cfg : Config) (contacts : UserContacts)
    (w : World) (subject message : String) :
    (∃ v1 v2 v3, channels cfg contacts w subject message =
      [("email", CallOutcome.returns v1), ("sms", CallOutcome.returns v2),
       ("telegram", CallOutcome.returns v3)])
    ∧ ∃ b, send_notification cfg contacts w subject message = .ok b := by
  constructor
  · exact ⟨_, _, _, rfl⟩
  · have h3 := dispatchLoop3_returns "email" "sms" "telegram"
      (_send_email w.emailT).retval
      (_send_sms cfg contacts (smsMessage subject message) w.smsNet).retval
      (_send_telegram cfg contacts (telegramMessage subject message)
        w.teleNet).retval
    show ∃ b, (dispatchLoop (channels cfg contacts w subject message)
      Option.none).1 = .ok b
    rw [show channels cfg contacts w subject message =
      [("email", .returns (_send_email w.emailT).retval),
       ("sms", .returns
        (_send_sms cfg contacts (smsMessage subject message) w.smsNet).retval),
       ("telegram", .returns
        (_send_telegram cfg contacts (telegramMessage subject message)
          w.teleNet).retval)] from rfl, h3]
    split_ifs <;> exact ⟨_, rfl⟩

/-- Claim C5: constructing the service for a user with no contacts row
raises the documented `ValidationError`, before any channel is attempted;
for a user with a contacts row it succeeds and binds that row unchanged. -/
theorem claim_c5_init_requires_contacts (user : User) :
    (user.contacts = Option.none →
      NotificationService.init user =
        .validationError "Контакты пользователя не заполнены")
    ∧ ∀ c, user.contacts = some c →
        NotificationService.init user = .ok { contacts := c } := by
  constructor
  · intro h
    simp [NotificationService.init, h]
  · intro c h
    simp [NotificationService.init, h]

/-- Claim C5 witness: both branches at concrete users. -/
theorem claim_c5_witness :
    NotificationService.init { contacts := Option.none } =
      .validationError "Контакты пользователя не заполнены"
    ∧ NotificationService.init { contacts := some contactsW } =
        .ok { contacts := contactsW } :=
  ⟨(claim_c5_init_requires_contacts { contacts := Option.none }).1 rfl,
   (claim_c5_init_requires_contacts { contacts := some contactsW }).2
     contactsW rfl⟩

/-- Claim C6 counterexample: the claim says an SMS attempt receiving a
non-200 status with an unparseable body yields the failure reason
"Unknown error".  In the code `response.json()` raises on an unparseable
body, the blanket handler catches it, and the diagnostic carries the decode
error's message — the "Unknown error" default is applied only when a parsed
body lacks the "message" field.  At HTTP 500 with an unparseable body the
helper logs the decode error, not "Unknown error". -/
theorem claim_c6_counterexample :
    (_send_sms cfgAll contactsW "Тема\nТекст"
      (.resp { status := 500, body := .unparseable "Expecting value" })).log
        = some "Ошибка отправки SMS: Expecting value"
    ∧ (_send_sms cfgAll contactsW "Тема\nТекст"
      (.resp { status := 500, body := .unparseable "Expecting value" })).log
        ≠ some "Tele2 API error: Unknown error" := by
  refine ⟨by decide, by decide⟩

/-- Claim C6 as amended: with the API key configured, HTTP 200 returns
`True`; any other status with a parsed JSON body returns `None` and logs
the body's "message" field, defaulting to "Unknown error" only when that
field is absent; any other status with an unparseable body returns `None`
and logs the JSON decode error's message through the generic handler, not
"Unknown error". -/
theorem claim_c6_sms_status_mapping (cfg : Config)
    (contacts : UserContacts) (message : String)
    (hkey : cfg.TELE2_API_KEY ≠ "") :
    (∀ b : Body, (_send_sms cfg contacts message
        (.resp { status := 200, body := b })).retval = .bool true)
    ∧ (∀ status jm ne, status ≠ 200 →
        (_send_sms cfg contacts message
          (.resp { status := status, body := .json jm ne })).log =
            some ("Tele2 API error: " ++ jm.getD "Unknown error")
        ∧ (_send_sms cfg contacts message
          (.resp { status := status, body := .json jm ne })).retval = .none)
    ∧ (∀ status derr, status ≠ 200 →
        (_send_sms cfg contacts message
          (.resp { status := status, body := .unparseable derr })).log =
            some ("Ошибка отправки SMS: " ++ derr)
        ∧ (_send_sms cfg contacts message
          (.resp { status := status, body := .unparseable derr })).retval =
            .none) := by
  refine ⟨?_, ?_, ?_⟩
  · intro b
    simp [_send_sms, hkey]
  · intro status jm ne hs
    constructor <;> simp [_send_sms, hkey, hs]
  · intro status derr hs
    constructor <;> simp [_send_sms, hkey, hs]

/-- Claim C6 witness: HTTP 200 delivers; HTTP 403 with body message
"invalid key" logs that reason; HTTP 500 with an unparseable body logs the
decode error. -/
theorem claim_c6_witness :
    (_send_sms cfgAll contactsW "Тема\nТекст"
      (.resp { status := 200, body := .json Option.none false })).retval =
        .bool true
    ∧ (_send_sms cfgAll contactsW "Тема\nТекст"
      (.resp { status := 403, body := .json (some "invalid key") true })).log =
        some "Tele2 API error: invalid key"
    ∧ (_send_sms cfgAll contactsW "Тема\nТекст"
      (.resp { status := 500, body := .unparseable "Expecting value" })).log =
        some "Ошибка отправки SMS: Expecting value" := by
  refine ⟨?_, ?_, ?_⟩
  · exact (claim_c6_sms_status_mapping cfgAll contactsW "Тема\nТекст"
      (by decide)).1 (.json Option.none false)
  · have h := ((claim_c6_sms_status_mapping cfgAll contactsW "Тема\nТекст"
      (by decide)).2.1 403 (some "invalid key") true (by decide)).1
    simpa using h
  · have h := ((claim_c6_sms_status_mapping cfgAll contactsW "Тема\nТекст"
      (by decide)).2.2 500 "Expecting value" (by decide)).1
    simpa using h

/-- Claim C7: the dispatch loop of `send_notification` (started with
`last_error` unset) raises the aggregate exception with exactly the last
raised channel failure's reason — earlier raised reasons are overwritten,
and a channel call that merely returns a falsy value (an unavailable
channel) never overwrites the recorded reason nor changes the outcome. -/
theorem claim_c7_last_error_wins (os : List (String × CallOutcome))
    (m : String) :
    ((dispatchLoop os Option.none).1 = .error m →
      ∃ e, lastRaised os = some e ∧ m = allFailedMsg e)
    ∧ ∀ name v, v.truthy = false →
        (dispatchLoop (os ++ [(name, CallOutcome.returns v)])
          Option.none).1 = (dispatchLoop os Option.none).1 := by
  constructor
  · intro h
    exact dispatchLoop_error_eq os Option.none m h
  · intro name v hv
    exact dispatchLoop_append_falsy os Option.none name v hv

/-- Concrete outcome list for the C7 witness: two raised failures around an
unavailable channel. -/
def osW : List (String × CallOutcome) :=
  [("email", .raises "smtp down"), ("sms", .returns (.bool false)),
   ("telegram", .raises "bad token")]

/-- Claim C7 witness: on `osW` the loop raises with the last reason
"bad token", and appending an unavailable channel changes nothing. -/
theorem claim_c7_witness :
    (∃ e, lastRaised osW = some e
      ∧ allFailedMsg "bad token" = allFailedMsg e)
    ∧ (dispatchLoop (osW ++ [("extra", CallOutcome.returns
        (PyVal.bool false))]) Option.none).1 =
      (dispatchLoop osW Option.none).1 :=
  ⟨(claim_c7_last_error_wins osW (allFailedMsg "bad token")).1 (by decide),
   (claim_c7_last_error_wins osW (allFailedMsg "bad token")).2 "extra"
     (PyVal.bool false) rfl⟩

/-- Claim C8: with no SMS API key the SMS helper returns `False` at once —
no outbound request is issued, whatever the network would have done — and
likewise the Telegram helper with no bot token. -/
theorem claim_c8_unavailable_short_circuit (cfg : Config)
    (contacts : UserContacts) (message : String) (net : NetResult) :
    (cfg.TELE2_API_KEY = "" →
      _send_sms cfg contacts message net =
        { retval := .bool false, request := Option.none,
          log := Option.none })
    ∧ (cfg.TELEGRAM_BOT_TOKEN = "" →
      _send_telegram cfg contacts message net =
        { retval := .bool false, request := Option.none,
          log := Option.none }) := by
  constructor
  · intro h
    simp [_send_sms, h]
  · intro h
    simp [_send_telegram, h]

/-- Claim C8 witness: with empty credentials both helpers return `False`
with no request, even when the network behaviour would be an exception. -/
theorem claim_c8_witness :
    _send_sms cfgNone contactsW "m" (NetResult.raises "unreached") =
      { retval := .bool false, request := Option.none, log := Option.none }
    ∧ _send_telegram cfgNone contactsW "m" (NetResult.raises "unreached") =
      { retval := .bool false, request := Option.none,
        log := Option.none } :=
  ⟨(claim_c8_unavailable_short_circuit cfgNone contactsW "m"
      (NetResult.raises "unreached")).1 rfl,
   (claim_c8_unavailable_short_circuit cfgNone contactsW "m"
      (NetResult.raises "unreached")).2 rfl⟩

/-- Claim C9: with credentials configured, the SMS attempt issues exactly
the request with payload text `subject ++ "\n" ++ body` (the text built by
`send_notification`), the configured sender name, the contact's phone
number as the recipient (`msisdn`) field, bearer-token authorization and a
10-second timeout; the Telegram attempt issues exactly the request with
text `"*" ++ subject ++ "*" ++ "\n" ++ body`, the contact's chat id, and
the token embedded in the `sendMessage` URL path. -/
theorem claim_c9_payload_shapes (cfg : Config) (contacts : UserContacts)
    (subject message : String) (net : NetResult)
    (hsms : cfg.TELE2_API_KEY ≠ "") (htg : cfg.TELEGRAM_BOT_TOKEN ≠ "") :
    (_send_sms cfg contacts (smsMessage subject message) net).request =
      some { url := cfg.TELE2_URL
             headers := [("Authorization", "Bearer " ++ cfg.TELE2_API_KEY),
                         ("Content-Type", "application/json")]
             payload := [("sender", cfg.TELE2_SENDER_NAME),
                         ("text", subject ++ "\n" ++ message),
                         ("msisdn", contacts.phone)]
             timeout := some 10 }
    ∧ (_send_telegram cfg contacts (telegramMessage subject message)
        net).request =
      some { url := cfg.TELEGRAM_URL ++ cfg.TELEGRAM_BOT_TOKEN ++
               "/sendMessage"
             headers := []
             payload := [("text", "*" ++ subject ++ "*" ++ "\n" ++ message),
                         ("chat_id", contacts.telegram_chat_id)]
             timeout := Option.none } := by
  constructor
  · cases net with
    | raises e => simp [_send_sms, hsms, smsRequest, smsMessage]
    | resp r =>
      obtain ⟨st, bd⟩ := r
      by_cases h : st = 200
      · simp [_send_sms, hsms, smsRequest, smsMessage, h]
      · cases bd <;> simp [_send_sms, hsms, smsRequest, smsMessage, h]
  · cases net with
    | raises e =>
      simp [_send_telegram, htg, telegramRequest, telegramMessage]
    | resp r =>
      obtain ⟨st, bd⟩ := r
      by_cases h : 400 ≤ st
      · simp [_send_telegram, htg, telegramRequest, telegramMessage, h]
      · cases bd <;>
          simp [_send_telegram, htg, telegramRequest, telegramMessage, h]

/-- Concrete successful HTTP exchange for the C9 witness. -/
def netOk200 : NetResult :=
  .resp { status := 200, body := .json Option.none false }

/-- Claim C9 witness: the concrete requests issued with the full
configuration. -/
theorem claim_c9_witness :
    (_send_sms cfgAll contactsW (smsMessage "Тема" "Текст")
        netOk200).request =
      some { url := cfgAll.TELE2_URL
             headers := [("Authorization",
                          "Bearer " ++ cfgAll.TELE2_API_KEY),
                         ("Content-Type", "application/json")]
             payload := [("sender", cfgAll.TELE2_SENDER_NAME),
                         ("text", "Тема" ++ "\n" ++ "Текст"),
                         ("msisdn", contactsW.phone)]
             timeout := some 10 }
    ∧ (_send_telegram cfgAll contactsW (telegramMessage "Тема" "Текст")
        netOk200).request =
      some { url := cfgAll.TELEGRAM_URL ++ cfgAll.TELEGRAM_BOT_TOKEN ++
               "/sendMessage"
             headers := []
             payload := [("text", "*" ++ "Тема" ++ "*" ++ "\n" ++ "Текст"),
                         ("chat_id", contactsW.telegram_chat_id)]
             timeout := Option.none } :=
  claim_c9_payload_shapes cfgAll contactsW "Тема" "Текст" netOk200
    (by decide) (by decide)

/-- Claim C10: payload construction is a deterministic pure function of
the configuration and the (contact, message) inputs — identical inputs
build identical requests — and the payloads contain exactly the fixed
field lists (no hidden timestamp or nonce field is ever injected). -/
theorem claim_c10_payload_deterministic (cfg : Config)
    (ca cb : UserContacts) (m1 m2 : String) (hc : ca = cb)
    (hm : m1 = m2) :
    smsRequest cfg ca m1 = smsRequest cfg cb m2
    ∧ telegramRequest cfg ca m1 = telegramRequest cfg cb m2
    ∧ (smsRequest cfg ca m1).payload.map Prod.fst =
        ["sender", "text", "msisdn"]
    ∧ (telegramRequest cfg ca m1).payload.map Prod.fst =
        ["text", "chat_id"] := by
  subst hc
  subst hm
  exact ⟨rfl, rfl, rfl, rfl⟩

/-- Claim C10 witness: two identical calls at a concrete input build
identical payloads with exactly the fixed fields. -/
theorem claim_c10_witness :
    smsRequest cfgAll contactsW "x" = smsRequest cfgAll contactsW "x"
    ∧ telegramRequest cfgAll contactsW "x" =
        telegramRequest cfgAll contactsW "x"
    ∧ (smsRequest cfgAll contactsW "x").payload.map Prod.fst =
        ["sender", "text", "msisdn"]
    ∧ (telegramRequest cfgAll contactsW "x").payload.map Prod.fst =
        ["text", "chat_id"] :=
  claim_c10_payload_deterministic cfgAll contactsW contactsW "x" "x"
    rfl rfl
